import Mathlib

/-!
Verification of the gopython310 embedding layer.

This file gives a shallow embedding of the value-marshaling, lifecycle,
execution and reference-counting logic of the library and proves or
refutes the specified properties against it.

Sources embedded:
* conversion layer (`goToPython`, `pythonToGo`, `sliceToPythonList`,
  `mapToPythonDict`, `pythonListToSlice`, `pythonDictToMap`,
  `buildArgumentTuple`) — src/unnamed/part_002;
* type helpers (`getTypeName`, `isNone`, `isString`, …, `safeDecRef`,
  `cStringToGoString`) — src/example/main.go (the bindings copy);
* C-string helpers (`stringToCString`) — src/types.go;
* lifecycle and invocation (`Initialize`, `IsInitialized`, `Finalize`,
  `RunString`, `RunFile`, `CallFunction`, `callFunctionUnsafe`,
  `getPythonError`) — src/unnamed/part_004;
* mutex wrappers (`withGIL`, `withGILReturn`) — src/threading.go.

Native CPython entry points are modelled by their documented C-API
contracts (noted at each definition).  Machine doubles are carried as
opaque bit patterns: the code never inspects them, it only passes them
through `PyFloat_FromDouble` / `PyFloat_AsDouble`, which are identities
on the bit pattern.
-/

namespace GoPython

/-- NUL character: the C-string terminator. -/
def nulChar : Char := Char.ofNat 0

/-- Host-native values handled by the conversion layer: the Go
`interface{}` values the library accepts.  `unsupported ty` stands for a
value of any other dynamic Go type whose name formats as `ty` (`%T`). -/
inductive GoVal where
  | nil
  | str (s : String)
  | int (n : Int)
  | int64 (n : Int)
  | float64 (bits : Nat)
  | bool (b : Bool)
  | list (xs : List GoVal)
  | dict (kvs : List (String × GoVal))
  | unsupported (tyName : String)

/-- Interpreter-side objects reachable through the conversion layer.
`PyVal.none` models both the interpreter `None` singleton and the NULL
reference that `goToPython` uses to represent Go `nil` (the two are
indistinguishable to `pythonToGo`, whose `isNone` accepts both).
`other ty` stands for any other object whose runtime type name is `ty`. -/
inductive PyVal where
  | none
  | str (s : String)
  | int (n : Int)
  | float (bits : Nat)
  | bool (b : Bool)
  | list (xs : List PyVal)
  | dict (kvs : List (PyVal × PyVal))
  | other (tyName : String)

/-- stringToCString (src/types.go lines 101-109): a Go string becomes a
NUL-terminated byte buffer; the empty string becomes the buffer `[0]`
(an empty C string, never a nil pointer). -/
def stringToCString (s : String) : List Char := s.toList ++ [nulChar]

/-- A C consumer of a `char*` sees only the bytes before the first NUL. -/
def decodeCString (cs : List Char) : String :=
  String.mk (cs.takeWhile (fun c => c != nulChar))

/-- cStringToGoString (src/example/main.go lines 259-273): copy bytes from
the pointer until the terminating zero byte. -/
def cStringToGoString (cs : List Char) : String := decodeCString cs

/-- Shorthand: the part of a Go string that survives transport through a
NUL-terminated C string. -/
def cTrunc (s : String) : String := decodeCString (stringToCString s)

/-- PyUnicode_FromString: builds an interpreter string from a C string
(reads up to the first NUL).  Allocation failure is not modelled. -/
def pyUnicodeFromString (cs : List Char) : PyVal := .str (decodeCString cs)

/-- PyUnicode_AsUTF8: the raw UTF-8 bytes of a string object; nil for any
non-string object. -/
def pyUnicodeAsUTF8 : PyVal → Option (List Char)
  | .str s => some (s.toList ++ [nulChar])
  | _ => Option.none

/-- PyLong_FromLong: a new integer object from an int64. -/
def pyLongFromLong (n : Int) : PyVal := .int n

/-- PyBool_FromLong: the True/False singleton for a C long. -/
def pyBoolFromLong (n : Int) : PyVal := .bool (n != 0)

/-- PyFloat_FromDouble: a new float object carrying the double untouched. -/
def pyFloatFromDouble (bits : Nat) : PyVal := .float bits

/-- PyLong_AsLong: the value of an int (or bool) object; on any other
object it fails, returning -1 with an error set (error flag not tracked
by this value-level model). -/
def pyLongAsLong : PyVal → Int
  | .int n => n
  | .bool b => if b then 1 else 0
  | _ => -1

/-- PyFloat_AsDouble: the double of a float object; -1 with an error set
otherwise. -/
def pyFloatAsDouble : PyVal → Nat
  | .float bits => bits
  | _ => 0

/-- getTypeName (src/example/main.go lines 159-192): `"NoneType"` for the
NULL reference, otherwise the `__name__` of the object's type. -/
def getTypeName : PyVal → String
  | .none => "NoneType"
  | .str _ => "str"
  | .int _ => "int"
  | .float _ => "float"
  | .bool _ => "bool"
  | .list _ => "list"
  | .dict _ => "dict"
  | .other ty => ty

/-- Test for the NULL reference (`obj == 0` on the Go side). -/
def isNullRef : PyVal → Bool
  | .none => true
  | _ => false

/-- isNone (src/example/main.go lines 247-250): NULL or type name NoneType. -/
def isNone (v : PyVal) : Bool := isNullRef v || getTypeName v == "NoneType"

/-- isString (src/example/main.go lines 206-209). -/
def isString (v : PyVal) : Bool := getTypeName v == "str"

/-- isInt (src/example/main.go lines 212-215). -/
def isInt (v : PyVal) : Bool := getTypeName v == "int"

/-- isBool (src/example/main.go lines 218-221). -/
def isBool (v : PyVal) : Bool := getTypeName v == "bool"

/-- isFloat (src/example/main.go lines 224-227). -/
def isFloat (v : PyVal) : Bool := getTypeName v == "float"

/-- isList (src/example/main.go lines 230-233). -/
def isList (v : PyVal) : Bool := getTypeName v == "list"

/-- isDict (src/example/main.go lines 236-239). -/
def isDict (v : PyVal) : Bool := getTypeName v == "dict"

/-- PyDict_SetItemString: interns the C-string key, stores the value under
it (replacing in place, or appending a new slot).  Per the CPython
contract (`PyDict_SetItem`) the value must be a real object: a NULL
reference is rejected with `PyErr_BadInternalCall`, returning -1 —
relevant because `goToPython` represents Go `nil` as NULL.  Returns the
updated dict, or `none` for the -1 case.  `keyMatches` is the stored-key
comparison against the interned C-string key. -/
def keyMatches (k : String) (kv : PyVal × PyVal) : Bool :=
  match kv.1 with
  | .str s => s == k
  | _ => false

def pyDictSetItemString (d : List (PyVal × PyVal)) (ckey : List Char)
    (v : PyVal) : Option (List (PyVal × PyVal)) :=
  if isNullRef v then Option.none
  else
    let k := decodeCString ckey
    if d.any (keyMatches k) then
      some (d.map (fun kv => if keyMatches k kv then (kv.1, v) else kv))
    else
      some (d ++ [(.str k, v)])

mutual

/-- goToPython (src/unnamed/part_002 lines 9-65): convert a Go value to an
interpreter object.  Go `nil` becomes the NULL reference (the code's
stand-in for None); each supported type goes through its creation entry
point; the list and dict cases delegate to `sliceToPythonList` /
`mapToPythonDict`, whose loops appear here as `listBuild` / `dictBuild`
(the named wrappers are defined right after this block and agree with the
inlined branches definitionally); any other Go type fails naming it. -/
def goToPython : GoVal → Except String PyVal
  | .nil => .ok .none
  | .str s => .ok (pyUnicodeFromString (stringToCString s))
  | .int n => .ok (pyLongFromLong n)
  | .int64 n => .ok (pyLongFromLong n)
  | .float64 x => .ok (pyFloatFromDouble x)
  | .bool b => .ok (if b then pyBoolFromLong 1 else pyBoolFromLong 0)
  | .list v =>
    match listBuild v 0 with
    | .error e => .error e
    | .ok items => .ok (.list items)
  | .dict v =>
    match dictBuild v [] with
    | .error e => .error e
    | .ok d => .ok (.dict d)
  | .unsupported ty => .error ("unsupported Go type: " ++ ty)

/-- Element loop of sliceToPythonList (src/unnamed/part_002 lines 68-89):
convert each element and store it by `PyList_SetItem` (which steals the
reference, and accepts a NULL slot); element-conversion failure releases
the list and wraps the element error with its index. -/
def listBuild : List GoVal → Nat → Except String (List PyVal)
  | [], _ => .ok []
  | item :: rest, i =>
    match goToPython item with
    | .error e => .error ("failed to convert slice item " ++ toString i ++ ": " ++ e)
    | .ok pyItem =>
      match listBuild rest (i + 1) with
      | .error e => .error e
      | .ok out => .ok (pyItem :: out)

/-- Entry loop of mapToPythonDict (src/unnamed/part_002 lines 92-117):
for each entry convert the value and insert it with the non-stealing
`PyDict_SetItemString`; on a set failure the dict and the value are
released and the key is named; after a successful insertion the value
reference is released (the dict holds its own).  `acc` is the dict built
so far. -/
def dictBuild : List (String × GoVal) → List (PyVal × PyVal) →
    Except String (List (PyVal × PyVal))
  | [], acc => .ok acc
  | (key, value) :: rest, acc =>
    match goToPython value with
    | .error e =>
      .error ("failed to convert dict value for key " ++ key ++ ": " ++ e)
    | .ok pyValue =>
      match pyDictSetItemString acc (stringToCString key) pyValue with
      | Option.none => .error ("failed to set dict item for key " ++ key)
      | some acc2 => dictBuild rest acc2

end

/-- sliceToPythonList (src/unnamed/part_002 lines 68-89): `PyList_New` plus
the `listBuild` loop; agrees definitionally with the `.list` branch of
`goToPython`. -/
def sliceToPythonList (slice : List GoVal) : Except String PyVal :=
  match listBuild slice 0 with
  | .error e => .error e
  | .ok items => .ok (.list items)

/-- mapToPythonDict (src/unnamed/part_002 lines 92-117): `PyDict_New` plus
the `dictBuild` loop; agrees definitionally with the `.dict` branch of
`goToPython`. -/
def mapToPythonDict (m : List (String × GoVal)) : Except String PyVal :=
  match dictBuild m [] with
  | .error e => .error e
  | .ok d => .ok (.dict d)

mutual

/-- pythonToGo (src/unnamed/part_002 lines 120-161): convert an interpreter
object to a Go value by successive runtime-type-name checks, in source
order: None, string, bool (deliberately before int), int, float, list,
dict, then failure naming the unmatched type. -/
def pythonToGo (v : PyVal) : Except String GoVal :=
  if isNone v then .ok .nil
  else if isString v then
    match pyUnicodeAsUTF8 v with
    | Option.none => .error "failed to convert Python string to UTF-8"
    | some cs => .ok (.str (cStringToGoString cs))
  else if isBool v then .ok (.bool (pyLongAsLong v != 0))
  else if isInt v then .ok (.int64 (pyLongAsLong v))
  else if isFloat v then .ok (.float64 (pyFloatAsDouble v))
  else if isList v then
    match v with
    | .list xs =>
      match listBack xs 0 with
      | .error e => .error e
      | .ok out => .ok (.list out)
    | _ => .ok (.list [])
  else if isDict v then
    match v with
    | .dict kvs =>
      match dictBack kvs with
      | .error e => .error e
      | .ok out => .ok (.dict out)
    | _ => .ok (.dict [])
  else .error ("unsupported Python type: " ++ getTypeName v)

/-- Item loop of pythonListToSlice (src/unnamed/part_002 lines 164-178):
walk the list by `PyList_Size` / `PyList_GetItem` (borrowed references)
converting each item; an item failure is wrapped naming the index. -/
def listBack : List PyVal → Nat → Except String (List GoVal)
  | [], _ => .ok []
  | item :: rest, i =>
    match pythonToGo item with
    | .error e => .error ("failed to convert list item " ++ toString i ++ ": " ++ e)
    | .ok val =>
      match listBack rest (i + 1) with
      | .error e => .error e
      | .ok out => .ok (val :: out)

/-- Entry loop of pythonDictToMap (src/unnamed/part_002 lines 181-224):
enumerate the keys (`PyDict_Keys`, released after use), skip any
non-string key, read each key through `PyUnicode_AsUTF8` plus a manual
copy-until-NUL, and fetch the value with `PyDict_GetItemString`
(borrowed).  `PyDict_Keys` yields the stored keys in insertion order and
`PyDict_GetItemString` returns the value stored under the looked-up C
string; the model walks the stored pairs directly, which coincides with
the key-list walk except for dicts whose distinct keys collapse under
NUL-truncation — never produced by `goToPython` and outside every
property proved here. -/
def dictBack : List (PyVal × PyVal) → Except String (List (String × GoVal))
  | [] => .ok []
  | (keyObj, valObj) :: rest =>
    if !(isString keyObj) then dictBack rest
    else
      match pyUnicodeAsUTF8 keyObj with
      | Option.none => dictBack rest
      | some cKey =>
        let key := cStringToGoString cKey
        match pythonToGo valObj with
        | .error e =>
          .error ("failed to convert dict value for key " ++ key ++ ": " ++ e)
        | .ok val =>
          match dictBack rest with
          | .error e => .error e
          | .ok out => .ok ((key, val) :: out)

end

/-- pythonListToSlice (src/unnamed/part_002 lines 164-178): the `listBack`
walk; agrees definitionally with the `isList` branch of `pythonToGo`. -/
def pythonListToSlice (xs : List PyVal) : Except String GoVal :=
  match listBack xs 0 with
  | .error e => .error e
  | .ok out => .ok (.list out)

/-- pythonDictToMap (src/unnamed/part_002 lines 181-224): the `dictBack`
walk; agrees definitionally with the `isDict` branch of `pythonToGo`. -/
def pythonDictToMap (kvs : List (PyVal × PyVal)) : Except String GoVal :=
  match dictBack kvs with
  | .error e => .error e
  | .ok out => .ok (.dict out)

/-- Argument loop of `buildArgumentTuple`. -/
def tupleBuild : List GoVal → Nat → Except String (List PyVal)
  | [], _ => .ok []
  | arg :: rest, i =>
    match goToPython arg with
    | .error e => .error ("failed to convert argument " ++ toString i ++ ": " ++ e)
    | .ok pyArg =>
      match tupleBuild rest (i + 1) with
      | .error e => .error e
      | .ok out => .ok (pyArg :: out)

/-- buildArgumentTuple (src/unnamed/part_002 lines 227-248), value level:
`PyTuple_New`, then convert each argument and store it with the stealing
`PyTuple_SetItem`; a conversion failure releases the tuple and names the
argument index.  (Reference-count behaviour is modelled separately for
the no-leak property.) -/
def buildArgumentTuple (args : List GoVal) : Except String (List PyVal) :=
  tupleBuild args 0

/-- Composition under test for the round-trip properties. -/
def roundTrip (v : GoVal) : Except String GoVal :=
  match goToPython v with
  | .error e => .error e
  | .ok pv => pythonToGo pv

/-- NoNul: the string survives C-string transport unchanged. -/
def NoNul (s : String) : Bool := s.toList.all (fun c => c != nulChar)

/-- Distinctness of the keys of a host map (a Go map cannot hold two equal
keys). -/
def distinctKeys : List String → Bool
  | [] => true
  | k :: rest => !(rest.any (fun k2 => k2 == k)) && distinctKeys rest

/-- Test for the Go `nil` value. -/
def isNilVal : GoVal → Bool
  | .nil => true
  | _ => false

mutual

/-- The value set of the round-trip law, as provable against the code:
values built from null, string, int64, float64, bool, sequences and
string-keyed maps of such, where every string and key is NUL-free, map
keys are distinct, and no map value is null (the NULL stand-in for nil is
rejected by the dict set-item entry point). -/
def Supported : GoVal → Bool
  | .nil => true
  | .str s => NoNul s
  | .int _ => false
  | .int64 _ => true
  | .float64 _ => true
  | .bool _ => true
  | .list xs => supportedList xs
  | .dict kvs => distinctKeys (kvs.map Prod.fst) && supportedDict kvs
  | .unsupported _ => false

/-- Elementwise `Supported` for sequences. -/
def supportedList : List GoVal → Bool
  | [] => true
  | x :: xs => Supported x && supportedList xs

/-- Entrywise condition for maps: NUL-free key, non-null supported value. -/
def supportedDict : List (String × GoVal) → Bool
  | [] => true
  | (k, v) :: rest =>
    NoNul k && !(isNilVal v) && Supported v && supportedDict rest

end

/-- The fixed order of the runtime-type-name checks of `pythonToGo`, as
the specification states it (order of src/unnamed/part_002 lines
120-161). -/
def typeCheckOrder : List String := ["NoneType", "str", "bool", "int", "float", "list", "dict"]

/-- Conversion bodies of `pythonToGo`, keyed by the matched type name.
Follows the spec wording of the per-type conversions; used by
`pythonToGoSpec` to express dispatch as a first-match lookup over
`typeCheckOrder`. -/
def convertByName (n : String) (v : PyVal) : Except String GoVal :=
  if n == "NoneType" then .ok .nil
  else if n == "str" then
    match pyUnicodeAsUTF8 v with
    | Option.none => .error "failed to convert Python string to UTF-8"
    | some cs => .ok (.str (cStringToGoString cs))
  else if n == "bool" then .ok (.bool (pyLongAsLong v != 0))
  else if n == "int" then .ok (.int64 (pyLongAsLong v))
  else if n == "float" then .ok (.float64 (pyFloatAsDouble v))
  else if n == "list" then
    match v with
    | .list xs =>
      match listBack xs 0 with
      | .error e => .error e
      | .ok out => .ok (.list out)
    | _ => .ok (.list [])
  else if n == "dict" then
    match v with
    | .dict kvs =>
      match dictBack kvs with
      | .error e => .error e
      | .ok out => .ok (.dict out)
    | _ => .ok (.dict [])
  else .error ("unsupported Python type: " ++ getTypeName v)

/-- Interpreter-to-host conversion as the specification words it: find the
first matching exact type-name check in the fixed `typeCheckOrder`, apply
its conversion, and fail naming the type when no check matches. -/
def pythonToGoSpec (v : PyVal) : Except String GoVal :=
  match typeCheckOrder.find? (fun n => getTypeName v == n) with
  | Option.none => .error ("unsupported Python type: " ++ getTypeName v)
  | some n => convertByName n v

/-! Lifecycle, execution and invocation model (src/unnamed/part_004,
src/threading.go, src/types.go).  Each public operation is a function
from an interpreter state to a result, a successor state and an event
trace.  An `Event` is either an acquisition/release of the single mutex
of `PureGoPython.mu` or the invocation of a named native entry point;
helper layers produce bare entry-point name lists, and only the public
operations insert lock events, mirroring `withGIL` / `withGILReturn`.
The behaviour of the native side is a parameter `NativeEnv` (status codes
and success of import / attribute lookup / call), so theorems quantify
over everything the native library may do. -/

/-- One observable step of a public operation. -/
inductive Event where
  | lock
  | unlock
  | call (name : String)
deriving DecidableEq

/-- Interpreter state visible to the binder: whether the function pointers
are registered (all-or-nothing in the model; the code nil-checks them
individually), the native initialized flag read by `Py_IsInitialized`,
and whether an interpreter exception is pending. -/
structure PyState where
  registered : Bool
  initialized : Bool
  errSet : Bool
deriving DecidableEq

/-- Behaviour of the native library during one operation: the status code
`PyRun_SimpleString` returns for a given source, whether that run leaves
an exception pending, success of `PyImport_Import` per module name, of
`PyObject_GetAttr` per attribute name, and of `PyObject_CallObject`; the
object a successful call returns; the string form of a pending exception
value; and the status code of `Py_FinalizeEx`. -/
structure NativeEnv where
  runStatus : String → Int
  runSetsErr : String → Bool
  importOk : String → Bool
  getattrOk : String → Bool
  callOk : Bool
  callResult : PyVal
  errMessage : String
  finalizeStatus : Int

/-- Entry points invoked by getTypeName (src/example/main.go lines
159-192) on a non-NULL object: query the type, build the `__name__`
string, fetch the attribute, read it as UTF-8, release the three owned
references.  On the NULL reference it returns early with no native
call. -/
def getTypeNameEv (v : PyVal) : List String :=
  if isNullRef v then []
  else ["PyObject_Type", "PyUnicode_FromString", "PyObject_GetAttr",
    "PyUnicode_AsUTF8", "Py_DecRef", "Py_DecRef", "Py_DecRef"]

mutual

/-- Entry points invoked by `goToPython` per value (src/unnamed/part_002
lines 9-65), including the release calls of its failure paths. -/
def goToPythonEv : GoVal → List String
  | .nil => []
  | .str _ => ["PyUnicode_FromString"]
  | .int _ => ["PyLong_FromLong"]
  | .int64 _ => ["PyLong_FromLong"]
  | .float64 _ => ["PyFloat_FromDouble"]
  | .bool _ => ["PyBool_FromLong"]
  | .list xs => "PyList_New" :: goListEv xs
  | .dict kvs => "PyDict_New" :: goDictEv kvs
  | .unsupported _ => []

/-- Entry points of the `sliceToPythonList` loop: convert each element,
then either release the list on an element failure or store the element
(stolen) and continue. -/
def goListEv : List GoVal → List String
  | [] => []
  | x :: rest =>
    goToPythonEv x ++
      (match goToPython x with
       | .error _ => ["Py_DecRef"]
       | .ok _ => "PyList_SetItem" :: goListEv rest)

/-- Entry points of the `mapToPythonDict` loop: convert each value, then on
a conversion failure release the dict; on a set-item failure (NULL value)
release the dict (the value, being NULL, is skipped by `safeDecRef`); on
success release the value after the non-stealing insertion. -/
def goDictEv : List (String × GoVal) → List String
  | [] => []
  | (_, v) :: rest =>
    goToPythonEv v ++
      (match goToPython v with
       | .error _ => ["Py_DecRef"]
       | .ok pv =>
         if isNullRef pv then ["PyDict_SetItemString", "Py_DecRef"]
         else "PyDict_SetItemString" :: "Py_DecRef" :: goDictEv rest)

end

mutual

/-- Entry points invoked by `pythonToGo` per object (src/unnamed/part_002
lines 120-161): one `getTypeName` round per type check performed before
the matching one, then the conversion calls of the matched branch. -/
def pythonToGoEv : PyVal → List String
  | .none => []
  | .str s =>
    getTypeNameEv (.str s) ++ getTypeNameEv (.str s) ++ ["PyUnicode_AsUTF8"]
  | .bool b =>
    getTypeNameEv (.bool b) ++ getTypeNameEv (.bool b) ++
      getTypeNameEv (.bool b) ++ ["PyLong_AsLong"]
  | .int n =>
    getTypeNameEv (.int n) ++ getTypeNameEv (.int n) ++ getTypeNameEv (.int n) ++
      getTypeNameEv (.int n) ++ ["PyLong_AsLong"]
  | .float x =>
    getTypeNameEv (.float x) ++ getTypeNameEv (.float x) ++
      getTypeNameEv (.float x) ++ getTypeNameEv (.float x) ++
      getTypeNameEv (.float x) ++ ["PyFloat_AsDouble"]
  | .list xs =>
    getTypeNameEv (.list xs) ++ getTypeNameEv (.list xs) ++
      getTypeNameEv (.list xs) ++ getTypeNameEv (.list xs) ++
      getTypeNameEv (.list xs) ++ getTypeNameEv (.list xs) ++
      ["PyList_Size"] ++ backListEv xs
  | .dict kvs =>
    getTypeNameEv (.dict kvs) ++ getTypeNameEv (.dict kvs) ++
      getTypeNameEv (.dict kvs) ++ getTypeNameEv (.dict kvs) ++
      getTypeNameEv (.dict kvs) ++ getTypeNameEv (.dict kvs) ++
      getTypeNameEv (.dict kvs) ++ ["PyDict_Keys", "PyList_Size"] ++
      backDictEv kvs ++ ["Py_DecRef"]
  | .other ty =>
    getTypeNameEv (.other ty) ++ getTypeNameEv (.other ty) ++
      getTypeNameEv (.other ty) ++ getTypeNameEv (.other ty) ++
      getTypeNameEv (.other ty) ++ getTypeNameEv (.other ty) ++
      getTypeNameEv (.other ty) ++ getTypeNameEv (.other ty)

/-- Entry points of the `pythonListToSlice` loop. -/
def backListEv : List PyVal → List String
  | [] => []
  | x :: rest =>
    "PyList_GetItem" :: pythonToGoEv x ++
      (match pythonToGo x with
       | .error _ => []
       | .ok _ => backListEv rest)

/-- Entry points of the `pythonDictToMap` loop: fetch each key from the key
list, test it for string-ness, read it, fetch its value and convert. -/
def backDictEv : List (PyVal × PyVal) → List String
  | [] => []
  | (keyObj, valObj) :: rest =>
    "PyList_GetItem" :: getTypeNameEv keyObj ++
      (if !(isString keyObj) then backDictEv rest
       else "PyUnicode_AsUTF8" :: "PyDict_GetItemString" :: pythonToGoEv valObj ++
         (match pythonToGo valObj with
          | .error _ => []
          | .ok _ => backDictEv rest))

end

/-- Argument loop of `buildTupleEv`. -/
def tupleLoopEv : List GoVal → List String
  | [] => []
  | a :: rest =>
    goToPythonEv a ++
      (match goToPython a with
       | .error _ => ["Py_DecRef"]
       | .ok _ => "PyTuple_SetItem" :: tupleLoopEv rest)

/-- Entry points of `buildArgumentTuple` (src/unnamed/part_002 lines
227-248): create the tuple, then per argument convert and either release
the tuple on a conversion failure or store the argument (stolen). -/
def buildTupleEv (args : List GoVal) : List String :=
  "PyTuple_New" :: tupleLoopEv args

/-- IsInitialized (src/unnamed/part_004 lines 53-58): false without a
native call when the pointer is unregistered, otherwise the result of the
`Py_IsInitialized` entry point. -/
def isInitializedFn (s : PyState) : Bool × List String :=
  if s.registered then (s.initialized, ["Py_IsInitialized"]) else (false, [])

/-- Initialize (src/unnamed/part_004 lines 43-50): fails only when the
function pointers are unregistered; otherwise invokes the native start
entry point unconditionally — no already-initialized check and no
post-start verification — and reports success. -/
def initializeFn (s : PyState) : Except String Unit × PyState × List Event :=
  if s.registered then
    (.ok (), { s with initialized := true }, [.call "Py_Initialize"])
  else
    (.error "Python functions not registered", s, [])

/-- getPythonError (src/unnamed/part_004 lines 233-270): when no exception
is pending, a generic error after the occurred-query alone; otherwise
fetch the triple (clearing the pending state), clear again, render the
value to a string and release the four owned references. -/
def getPythonErrorFn (env : NativeEnv) (s : PyState) :
    String × PyState × List String :=
  if s.errSet then
    ("Python error: " ++ env.errMessage, { s with errSet := false },
     ["PyErr_Occurred", "PyErr_Fetch", "PyErr_Clear", "PyObject_Str",
      "PyUnicode_AsUTF8", "Py_DecRef", "Py_DecRef", "Py_DecRef", "Py_DecRef"])
  else
    ("unknown Python error", s, ["PyErr_Occurred"])

/-- RunString (src/unnamed/part_004 lines 117-130): state check through the
initialization query, then under the mutex (`withGIL`) convert the source
to a C string, invoke the run entry point, and on a nonzero status
translate the pending exception through `getPythonError`.  There is no
emptiness check on the source: the empty string becomes an empty C
string and is passed to the entry point like any other program. -/
def runStringFn (env : NativeEnv) (code : String) (s : PyState) :
    Option String × PyState × List Event :=
  let q := isInitializedFn s
  if !q.1 then
    (some "Python interpreter is not initialized", s, q.2.map Event.call)
  else
    let src := decodeCString (stringToCString code)
    let s1 := { s with errSet := s.errSet || env.runSetsErr src }
    if env.runStatus src != 0 then
      (some (getPythonErrorFn env s1).1, (getPythonErrorFn env s1).2.1,
       q.2.map Event.call ++ [.lock] ++
         (("PyRun_SimpleString" :: (getPythonErrorFn env s1).2.2).map Event.call) ++
         [.unlock])
    else
      (Option.none, s1,
       q.2.map Event.call ++ [.lock, .call "PyRun_SimpleString", .unlock])

/-- RunFile (src/unnamed/part_004 lines 133-150): state check, existence
check against the file system (a map from names to contents), read the
content and delegate to RunString (which re-checks and locks). -/
def runFileFn (env : NativeEnv) (fs : String → Option String)
    (filename : String) (s : PyState) :
    Option String × PyState × List Event :=
  let q := isInitializedFn s
  if !q.1 then
    (some "Python interpreter is not initialized", s, q.2.map Event.call)
  else
    match fs filename with
    | Option.none =>
      (some ("file does not exist: " ++ filename), s, q.2.map Event.call)
    | some content =>
      ((runStringFn env content s).1, (runStringFn env content s).2.1,
       q.2.map Event.call ++ (runStringFn env content s).2.2)

/-- Cleanup script run by Finalize before the native stop call
(src/unnamed/part_004 lines 72-102); its run status is ignored.  String
literals are written double-quoted; the script text itself plays no role
in any property. -/
def cleanupCode : String :=
  "\nimport gc\nimport threading\nimport sys\n\ngc.collect()\n" ++
  "main_thread = threading.main_thread()\nfor thread in threading.enumerate():\n" ++
  "    if thread != main_thread and thread.is_alive():\n        try:\n" ++
  "            if hasattr(thread, \"join\"):\n                thread.join(timeout=0.1)\n" ++
  "        except:\n            pass\n\nif hasattr(sys, \"modules\"):\n" ++
  "    modules_to_clear = [name for name in sys.modules.keys()\n" ++
  "                       if not name.startswith(\"__\") and name not in [\"sys\", \"builtins\"]]\n" ++
  "    for name in modules_to_clear:\n        try:\n            del sys.modules[name]\n" ++
  "        except:\n            pass\n\ngc.collect()\n"

/-- Finalize (src/unnamed/part_004 lines 61-114): requires registration and
the initialized state; runs the cleanup script under the mutex with its
closure always returning nil (the run status is discarded); then invokes
the native finalization entry point outside the mutex — which shuts the
interpreter down on any outcome — and fails exactly when its status code
is negative. -/
def finalizeFn (env : NativeEnv) (s : PyState) :
    Option String × PyState × List Event :=
  if !s.registered then (some "Python functions not registered", s, [])
  else
    let q := isInitializedFn s
    if !q.1 then
      (some "Python interpreter is not initialized", s, q.2.map Event.call)
    else
      let s1 := { s with errSet := s.errSet || env.runSetsErr cleanupCode }
      let s2 := { s1 with initialized := false }
      let tr := q.2.map Event.call ++
        [.lock, .call "PyRun_SimpleString", .unlock, .call "Py_FinalizeEx"]
      if env.finalizeStatus < 0 then
        (some ("Python interpreter finalization failed with code: " ++
          toString env.finalizeStatus), s2, tr)
      else
        (Option.none, s2, tr)

/-- callFunctionUnsafe (src/unnamed/part_004 lines 164-207): import the
module, resolve the function, build the argument tuple, call, convert the
result; every owned reference is released by a deferred `safeDecRef`.
Failure paths: import failure and call failure translate the pending
exception through `getPythonError`; attribute-lookup failure returns an
error without touching the pending exception; argument-build failure
wraps the conversion error.  Returns the bare entry-point call list; the
mutex events are added by `callFunctionFn`. -/
def callFunctionUnsafeFn (env : NativeEnv) (module func : String)
    (args : List GoVal) (s : PyState) :
    Except String GoVal × PyState × List String :=
  if !env.importOk module then
    let s1 := { s with errSet := true }
    (.error ("failed to import module " ++ module ++ ": " ++
       (getPythonErrorFn env s1).1), (getPythonErrorFn env s1).2.1,
     ["PyUnicode_FromString", "PyImport_Import"] ++ (getPythonErrorFn env s1).2.2 ++
       ["Py_DecRef"])
  else if !env.getattrOk func then
    (.error ("function " ++ func ++ " not found in module " ++ module),
     { s with errSet := true },
     ["PyUnicode_FromString", "PyImport_Import", "PyUnicode_FromString",
      "PyObject_GetAttr", "Py_DecRef", "Py_DecRef", "Py_DecRef"])
  else
    let pre := ["PyUnicode_FromString", "PyImport_Import",
      "PyUnicode_FromString", "PyObject_GetAttr"]
    match buildArgumentTuple args with
    | .error e =>
      (.error ("failed to build arguments: " ++ e), s,
       pre ++ buildTupleEv args ++ ["Py_DecRef", "Py_DecRef", "Py_DecRef", "Py_DecRef"])
    | .ok _ =>
      if !env.callOk then
        let s1 := { s with errSet := true }
        (.error ("function call failed: " ++ (getPythonErrorFn env s1).1),
         (getPythonErrorFn env s1).2.1,
         pre ++ buildTupleEv args ++ ["PyObject_CallObject"] ++
           (getPythonErrorFn env s1).2.2 ++
           ["Py_DecRef", "Py_DecRef", "Py_DecRef", "Py_DecRef", "Py_DecRef"])
      else
        (pythonToGo env.callResult, s,
         pre ++ buildTupleEv args ++ ["PyObject_CallObject"] ++
           pythonToGoEv env.callResult ++
           ["Py_DecRef", "Py_DecRef", "Py_DecRef", "Py_DecRef", "Py_DecRef",
            "Py_DecRef"])

/-- CallFunction (src/unnamed/part_004 lines 153-161): state check through
the initialization query, then `callFunctionUnsafe` under the mutex
(`withGILReturn`). -/
def callFunctionFn (env : NativeEnv) (module func : String)
    (args : List GoVal) (s : PyState) :
    Except String GoVal × PyState × List Event :=
  let q := isInitializedFn s
  if !q.1 then
    (.error "Python interpreter is not initialized", s, q.2.map Event.call)
  else
    ((callFunctionUnsafeFn env module func args s).1,
     (callFunctionUnsafeFn env module func args s).2.1,
     q.2.map Event.call ++ [.lock] ++
       (callFunctionUnsafeFn env module func args s).2.2.map Event.call ++ [.unlock])

/-! Reference-count model of the argument-tuple build (src/unnamed/part_002
lines 227-248 together with the tuple handling of callFunctionUnsafe,
src/unnamed/part_004 lines 191-196).  Each converted argument is tracked
by the reference id of its root object (children of containers hang below
their root and travel with it); the tuple gets id 0 and the arguments get
ids 1, 2, … in conversion order.  Release events distinguish who
releases: `binderDecref` is a `safeDecRef` performed by the Go code;
`stealRelease` is the release the stealing `PyTuple_SetItem` performs on
its argument when it fails (per the CPython contract the reference is
stolen even on error); `teardown` is the release of a stored item when
the tuple itself is deallocated.  `setFails` says whether the set-item
entry point fails at a given index (it cannot for these always-in-range
indices, but the failure branch is in the code and is covered). -/

/-- One reference-release event of the tuple build. -/
inductive RefEvent where
  | binderDecref (id : Nat)
  | stealRelease (id : Nat)
  | teardown (id : Nat)
deriving DecidableEq

/-- Outcome of the build loop: success flag, root ids of the successfully
converted arguments in order, those of the arguments actually stored in
the tuple, and the releases performed by a failing set-item call. -/
structure BuildRC where
  ok : Bool
  convertedIds : List Nat
  insertedIds : List Nat
  stealEvents : List RefEvent
deriving DecidableEq

/-- Argument loop of buildArgumentTuple at the reference level: convert
(fresh id `nid` on success), then store by index — on a set failure the
converted reference has been consumed by the failing call and the loop
stops; on a conversion failure there is no converted reference. -/
def buildLoopRC (setFails : Nat → Bool) : List GoVal → Nat → Nat → BuildRC
  | [], _, _ => ⟨true, [], [], []⟩
  | a :: rest, i, nid =>
    match goToPython a with
    | .error _ => ⟨false, [], [], []⟩
    | .ok _ =>
      if setFails i then ⟨false, [nid], [], [.stealRelease nid]⟩
      else
        let r := buildLoopRC setFails rest (i + 1) (nid + 1)
        ⟨r.ok, nid :: r.convertedIds, nid :: r.insertedIds, r.stealEvents⟩

/-- buildArgumentTuple at the reference level: tuple id 0, argument ids
from 1. -/
def buildArgumentTupleRC (setFails : Nat → Bool) (args : List GoVal) : BuildRC :=
  buildLoopRC setFails args 0 1

/-- All releases of the build plus the caller's tuple handling: on a build
failure `buildArgumentTuple` releases the tuple once (tearing down the
stored items) and `callFunctionUnsafe` returns before installing its
deferred release; on success the deferred `safeDecRef` of
`callFunctionUnsafe` releases the tuple exactly once at the end. -/
def callTupleEvents (setFails : Nat → Bool) (args : List GoVal) : List RefEvent :=
  let r := buildArgumentTupleRC setFails args
  r.stealEvents ++ RefEvent.binderDecref 0 :: r.insertedIds.map RefEvent.teardown

/-- Test: this event releases reference `id` (by whatever mechanism). -/
def releasesId (id : Nat) : RefEvent → Bool
  | .binderDecref j => j == id
  | .stealRelease j => j == id
  | .teardown j => j == id

/-- Test: this event is a binder-side `safeDecRef` of reference `id`. -/
def isBinderDecrefOf (id : Nat) : RefEvent → Bool
  | .binderDecref j => j == id
  | _ => false

/-- How many times reference `id` is released in a trace. -/
def countReleases (evs : List RefEvent) (id : Nat) : Nat :=
  (evs.filter (releasesId id)).length

/-- How many times the binder itself releases reference `id`. -/
def countBinderDecrefs (evs : List RefEvent) (id : Nat) : Nat :=
  (evs.filter (isBinderDecrefOf id)).length

/-- Claim form of full-duration mutex coverage: the trace acquires the
mutex first, releases it last, and never touches it in between. -/
def lockWrapped (tr : List Event) : Prop :=
  ∃ mid, tr = Event.lock :: mid ++ [Event.unlock] ∧
    ∀ e ∈ mid, e ≠ Event.lock ∧ e ≠ Event.unlock

/-- Test fixture: a native side on which every operation succeeds. -/
def env0 : NativeEnv :=
  { runStatus := fun _ => 0, runSetsErr := fun _ => false,
    importOk := fun _ => true, getattrOk := fun _ => true, callOk := true,
    callResult := .none, errMessage := "", finalizeStatus := 0 }

/-- Test fixture: a native side whose attribute lookups fail (missing
function), everything else succeeding. -/
def envAttrFail : NativeEnv :=
  { env0 with getattrOk := fun _ => false }

/-- Test fixture: a native side whose finalization entry point reports a
negative status. -/
def envFinFail : NativeEnv :=
  { env0 with finalizeStatus := -1 }

/-- Test fixture: a native side on which running source fails with an
exception left pending. -/
def envRunFail : NativeEnv :=
  { env0 with runStatus := fun _ => -1, runSetsErr := fun _ => true }

/-- Test fixture: a native side whose module imports fail. -/
def envImportFail : NativeEnv :=
  { env0 with importOk := fun _ => false }

/-- Test fixture: registered and initialized interpreter state with no
pending exception. -/
def stInit : PyState := { registered := true, initialized := true, errSet := false }

/-- Test fixture: registered but uninitialized interpreter state. -/
def stUninit : PyState := { registered := true, initialized := false, errSet := false }

/-- Test fixture: an empty file system. -/
def fsEmpty : String → Option String := fun _ => Option.none

/-- The named conversion wrappers agree definitionally with the inlined
branches of `goToPython` / `pythonToGo`. -/
theorem wrappers_agree :
    (∀ v, goToPython (.list v) = sliceToPythonList v) ∧
    (∀ m, goToPython (.dict m) = mapToPythonDict m) ∧
    (∀ xs, pythonToGo (.list xs) = pythonListToSlice xs) ∧
    (∀ kvs, pythonToGo (.dict kvs) = pythonDictToMap kvs) :=
  ⟨fun _ => rfl, fun _ => rfl, fun _ => rfl, fun _ => rfl⟩

theorem buildLoopRC_inv (setFails : Nat → Bool) :
    ∀ (args : List GoVal) (i nid : Nat),
    (∀ id ∈ (buildLoopRC setFails args i nid).convertedIds, nid ≤ id) ∧
    ((buildLoopRC setFails args i nid).insertedIds =
        (buildLoopRC setFails args i nid).convertedIds ∧
      (buildLoopRC setFails args i nid).stealEvents = [] ∨
     (∃ j, (buildLoopRC setFails args i nid).convertedIds =
        (buildLoopRC setFails args i nid).insertedIds ++ [j] ∧
      (buildLoopRC setFails args i nid).stealEvents = [RefEvent.stealRelease j] ∧
      j ∉ (buildLoopRC setFails args i nid).insertedIds)) ∧
    (buildLoopRC setFails args i nid).insertedIds.Nodup := by
  intro args
  induction args with
  | nil =>
    intro i nid
    exact ⟨by simp [buildLoopRC], Or.inl ⟨rfl, rfl⟩, by simp [buildLoopRC]⟩
  | cons a rest ih =>
    intro i nid
    cases hgo : goToPython a with
    | error e =>
      refine ⟨?_, Or.inl ⟨?_, ?_⟩, ?_⟩ <;> simp [buildLoopRC, hgo]
    | ok pv =>
      by_cases hf : setFails i
      · refine ⟨?_, Or.inr ⟨nid, ?_, ?_, ?_⟩, ?_⟩ <;> simp [buildLoopRC, hgo, hf]
      · obtain ⟨hb, hd, hn⟩ := ih (i + 1) (nid + 1)
        have hins : ∀ id ∈ (buildLoopRC setFails rest (i + 1) (nid + 1)).insertedIds,
            nid + 1 ≤ id := by
          intro id hid
          apply hb
          rcases hd with ⟨he, _⟩ | ⟨j, hj1, _, _⟩
          · rwa [he] at hid
          · rw [hj1]; exact List.mem_append_left _ hid
        refine ⟨?_, ?_, ?_⟩
        · intro id hid
          simp only [buildLoopRC, hgo, hf, if_neg, Bool.false_eq_true,
            not_false_eq_true, List.mem_cons] at hid
          rcases hid with rfl | hid
          · exact Nat.le_refl _
          · exact Nat.le_of_succ_le (hb id hid)
        · rcases hd with ⟨he, hs⟩ | ⟨j, hj1, hj2, hj3⟩
          · exact Or.inl ⟨by simp [buildLoopRC, hgo, hf, he], by
              simp [buildLoopRC, hgo, hf, hs]⟩
          · refine Or.inr ⟨j, ?_, ?_, ?_⟩
            · simp [buildLoopRC, hgo, hf, hj1]
            · simp [buildLoopRC, hgo, hf, hj2]
            · simp only [buildLoopRC, hgo, hf, if_neg, Bool.false_eq_true,
                not_false_eq_true, List.mem_cons, not_or]
              constructor
              · have : nid + 1 ≤ j := by
                  apply hb
                  rw [hj1]
                  exact List.mem_append_right _ (by simp)
                omega
              · exact hj3
        · simp only [buildLoopRC, hgo, hf, if_neg, Bool.false_eq_true,
            not_false_eq_true, List.nodup_cons]
          refine ⟨?_, hn⟩
          intro hmem
          have := hins nid hmem
          omega

theorem count_teardown (id : Nat) :
    ∀ l : List Nat, l.Nodup →
    ((l.map RefEvent.teardown).filter (releasesId id)).length =
      if id ∈ l then 1 else 0 := by
  intro l
  induction l with
  | nil => intro _; simp
  | cons a l ih =>
    intro hn
    rw [List.nodup_cons] at hn
    by_cases ha : a = id
    · subst ha
      simp [releasesId, ih hn.2, hn.1]
    · simp [releasesId, ih hn.2, ha, Ne.symm ha]

theorem takeWhile_append_all {α} (p : α → Bool) (c : α) (hc : p c = false) :
    ∀ l : List α, l.all p = true → (l ++ [c]).takeWhile p = l := by
  intro l
  induction l with
  | nil => intro _; simp [List.takeWhile, hc]
  | cons a l ih =>
    intro h
    simp only [List.all_cons, Bool.and_eq_true] at h
    simp [List.takeWhile, h.1, ih h.2]

theorem cTrunc_of_noNul (s : String) (h : NoNul s = true) : cTrunc s = s := by
  have hnul : (nulChar != nulChar) = false := by simp
  have := takeWhile_append_all (fun c => c != nulChar) nulChar hnul s.toList h
  simp only [cTrunc, decodeCString, stringToCString, this]
  cases s
  rfl

theorem cStringToGoString_of_noNul (s : String) (h : NoNul s = true) :
    cStringToGoString (s.toList ++ [nulChar]) = s :=
  cTrunc_of_noNul s h

mutual

/-- Round trip of a single supported value; the last conjunct records that
the conversion yields the NULL reference exactly for Go nil, which the
map case needs (the dict set-item entry point rejects NULL values). -/
theorem rtVal : ∀ v, Supported v = true →
    ∃ pv, goToPython v = .ok pv ∧ pythonToGo pv = .ok v ∧
      isNullRef pv = isNilVal v
  | .nil, _ => ⟨.none, rfl, rfl, rfl⟩
  | .str s, h => by
    refine ⟨.str s, ?_, ?_, rfl⟩
    · show Except.ok (PyVal.str (cTrunc s)) = _
      rw [cTrunc_of_noNul s h]
    · show Except.ok (GoVal.str (cTrunc s)) = _
      rw [cTrunc_of_noNul s h]
  | .int64 n, _ => ⟨.int n, rfl, rfl, rfl⟩
  | .float64 x, _ => ⟨.float x, rfl, rfl, rfl⟩
  | .bool b, _ => by cases b <;> exact ⟨_, rfl, rfl, rfl⟩
  | .list xs, h => by
    obtain ⟨pvs, h1, h2⟩ := rtList xs (by simpa [Supported] using h) 0
    refine ⟨.list pvs, ?_, ?_, rfl⟩
    · show (match listBuild xs 0 with
        | .error e => Except.error e
        | .ok items => Except.ok (PyVal.list items)) = _
      rw [h1]
    · show (match listBack pvs 0 with
        | .error e => Except.error e
        | .ok out => Except.ok (GoVal.list out)) = _
      rw [h2 0]
  | .dict kvs, h => by
    have h' : distinctKeys (kvs.map Prod.fst) = true ∧ supportedDict kvs = true := by
      simpa [Supported, Bool.and_eq_true] using h
    obtain ⟨tail, h1, h2⟩ := rtDict kvs h'.2 h'.1 [] (fun kv _ => rfl)
    refine ⟨.dict tail, ?_, ?_, rfl⟩
    · show (match dictBuild kvs [] with
        | .error e => Except.error e
        | .ok d => Except.ok (PyVal.dict d)) = _
      rw [h1]
      simp
    · show (match dictBack tail with
        | .error e => Except.error e
        | .ok out => Except.ok (GoVal.dict out)) = _
      rw [h2]

/-- Round trip of the element loop of a supported sequence, for any pair of
cosmetic index counters. -/
theorem rtList : ∀ xs, supportedList xs = true →
    ∀ i, ∃ pvs, listBuild xs i = .ok pvs ∧ ∀ j, listBack pvs j = .ok xs
  | [], _, _ => ⟨[], rfl, fun _ => rfl⟩
  | x :: rest, h, i => by
    have h' : Supported x = true ∧ supportedList rest = true := by
      simpa [supportedList, Bool.and_eq_true] using h
    obtain ⟨pv, hx1, hx2, _⟩ := rtVal x h'.1
    obtain ⟨pvs, hr1, hr2⟩ := rtList rest h'.2 (i + 1)
    refine ⟨pv :: pvs, ?_, ?_⟩
    · simp only [listBuild, hx1, hr1]
    · intro j
      simp only [listBack, hx2, hr2 (j + 1)]

/-- Round trip of the entry loop of a supported map: building on top of any
dict whose stored keys avoid the keys of the remaining entries appends
the converted pairs, and reading those pairs back recovers the entries. -/
theorem rtDict : ∀ kvs, supportedDict kvs = true →
    distinctKeys (kvs.map Prod.fst) = true →
    ∀ acc : List (PyVal × PyVal),
      (∀ kv ∈ kvs, acc.any (keyMatches kv.1) = false) →
    ∃ tail, dictBuild kvs acc = .ok (acc ++ tail) ∧ dictBack tail = .ok kvs
  | [], _, _, acc, _ => ⟨[], by simp [dictBuild], rfl⟩
  | (k, v) :: rest, h, hd, acc, hacc => by
    rw [supportedDict] at h
    simp only [Bool.and_eq_true, Bool.not_eq_true'] at h
    obtain ⟨⟨⟨hk, hnilv⟩, hsupv⟩, hrest⟩ := h
    rw [List.map_cons, distinctKeys] at hd
    simp only [Bool.and_eq_true, Bool.not_eq_true'] at hd
    obtain ⟨hne, hdist⟩ := hd
    obtain ⟨pv, hv1, hv2, hv3⟩ := rtVal v hsupv
    have hnull : isNullRef pv = false := by rw [hv3]; exact hnilv
    have hkey : decodeCString (stringToCString k) = k := cTrunc_of_noNul k hk
    have hset : pyDictSetItemString acc (stringToCString k) pv =
        some (acc ++ [((PyVal.str k), pv)]) := by
      have hany : acc.any (keyMatches k) = false := hacc (k, v) (by simp)
      simp only [pyDictSetItemString, hnull, hkey, hany]
      simp
    have haccdis : ∀ kv ∈ rest, (acc ++ [((PyVal.str k), pv)]).any (keyMatches kv.1) = false := by
      intro kv hkv
      have h1 : acc.any (keyMatches kv.1) = false := hacc kv (by simp [hkv])
      have h2 : keyMatches kv.1 ((PyVal.str k), pv) = false := by
        have hne1 : (kv.1 == k) = false := by
          have := List.any_eq_false.mp hne kv.1 (List.mem_map_of_mem Prod.fst hkv)
          simpa using this
        have hne2 : kv.1 ≠ k := by simpa using hne1
        show (k == kv.1) = false
        exact beq_eq_false_iff_ne.mpr (Ne.symm hne2)
      simp [List.any_append, h1, h2]
    obtain ⟨tail', ht1, ht2⟩ := rtDict rest hrest hdist (acc ++ [((PyVal.str k), pv)]) haccdis
    refine ⟨((PyVal.str k), pv) :: tail', ?_, ?_⟩
    · show (match goToPython v with
        | .error e =>
          Except.error ("failed to convert dict value for key " ++ k ++ ": " ++ e)
        | .ok pyValue =>
          match pyDictSetItemString acc (stringToCString k) pyValue with
          | Option.none => .error ("failed to set dict item for key " ++ k)
          | some acc2 => dictBuild rest acc2) = _
      rw [hv1]
      show (match pyDictSetItemString acc (stringToCString k) pv with
        | Option.none => Except.error ("failed to set dict item for key " ++ k)
        | some acc2 => dictBuild rest acc2) = _
      rw [hset]
      show dictBuild rest (acc ++ [((PyVal.str k), pv)]) = _
      rw [ht1]
      simp
    · show (match pythonToGo pv with
        | .error e =>
          Except.error ("failed to convert dict value for key " ++
            cStringToGoString (k.toList ++ [nulChar]) ++ ": " ++ e)
        | .ok val =>
          match dictBack tail' with
          | .error e => .error e
          | .ok out =>
            .ok ((cStringToGoString (k.toList ++ [nulChar]), val) :: out)) = _
      rw [hv2, ht2, cStringToGoString_of_noNul k hk]

end

/-- C1: the round-trip law holds on the claimed value set restricted to
values whose strings and map keys are NUL-free and whose map values are
not null: for every such `v`, `pythonToGo (goToPython v)` succeeds and is
deep-equal to `v` (on-the-nose equal in the model), preserving 64-bit
integers and double bit patterns exactly. -/
theorem c1_roundTrip : ∀ v, Supported v = true → roundTrip v = .ok v := by
  intro v h
  obtain ⟨pv, h1, h2, _⟩ := rtVal v h
  simp only [roundTrip, h1, h2]

/-- Witness for C1 at a nested concrete value. -/
theorem c1_witness :
    Supported (.dict [("a", .list [.int64 3, .str "x", .bool true, .nil]),
      ("b", .float64 7)]) = true ∧
    roundTrip (.dict [("a", .list [.int64 3, .str "x", .bool true, .nil]),
      ("b", .float64 7)]) =
      .ok (.dict [("a", .list [.int64 3, .str "x", .bool true, .nil]),
        ("b", .float64 7)]) :=
  ⟨rfl, c1_roundTrip _ rfl⟩

/-- C1 counterexample to the unrestricted claim: a host string containing
an interior NUL byte is truncated by C-string transport (it comes back as
a different string), and a map holding a null value fails to convert at
all, because `goToPython` passes Go nil as the NULL reference and the
dict set-item entry point rejects NULL values. -/
theorem c1_counterexample :
    roundTrip (.str (String.mk ['a', nulChar, 'b'])) = .ok (.str "a") ∧
    String.mk ['a', nulChar, 'b'] ≠ "a" ∧
    roundTrip (.dict [("a", .nil)]) =
      .error "failed to set dict item for key a" :=
  ⟨rfl, by decide, rfl⟩

/-- C2: `pythonToGo` is exactly the first-match dispatch over the fixed
type-name check order null, string, boolean, integer, float, list, dict;
a boolean object always converts to a host boolean (never an integer,
boolean-ness being checked before integer-ness); and an object matching
no check fails with an error naming its runtime type name. -/
theorem c2_typeNameDispatch :
    (∀ v, pythonToGo v = pythonToGoSpec v) ∧
    (∀ b, pythonToGo (.bool b) = .ok (.bool b)) ∧
    (∀ ty, ty ∉ typeCheckOrder →
      pythonToGo (.other ty) = .error ("unsupported Python type: " ++ ty)) := by
  refine ⟨?_, ?_, ?_⟩
  · intro v
    match v with
    | .none => rfl
    | .str _ => rfl
    | .int _ => rfl
    | .float _ => rfl
    | .bool _ => rfl
    | .list _ => rfl
    | .dict _ => rfl
    | .other ty =>
      by_cases h1 : ty = "NoneType"
      · subst h1; rfl
      by_cases h2 : ty = "str"
      · subst h2; rfl
      by_cases h3 : ty = "bool"
      · subst h3; rfl
      by_cases h4 : ty = "int"
      · subst h4; rfl
      by_cases h5 : ty = "float"
      · subst h5; rfl
      by_cases h6 : ty = "list"
      · subst h6; rfl
      by_cases h7 : ty = "dict"
      · subst h7; rfl
      have b1 : (ty == "NoneType") = false := beq_eq_false_iff_ne.mpr h1
      have b2 : (ty == "str") = false := beq_eq_false_iff_ne.mpr h2
      have b3 : (ty == "bool") = false := beq_eq_false_iff_ne.mpr h3
      have b4 : (ty == "int") = false := beq_eq_false_iff_ne.mpr h4
      have b5 : (ty == "float") = false := beq_eq_false_iff_ne.mpr h5
      have b6 : (ty == "list") = false := beq_eq_false_iff_ne.mpr h6
      have b7 : (ty == "dict") = false := beq_eq_false_iff_ne.mpr h7
      simp [pythonToGo, pythonToGoSpec, typeCheckOrder, List.find?, getTypeName,
        isNone, isNullRef, isString, isBool, isInt, isFloat, isList, isDict,
        b1, b2, b3, b4, b5, b6, b7]
  · intro b; cases b <;> rfl
  · intro ty h
    simp only [typeCheckOrder, List.mem_cons, List.not_mem_nil, or_false] at h
    push_neg at h
    obtain ⟨h1, h2, h3, h4, h5, h6, h7⟩ := h
    have b1 : (ty == "NoneType") = false := beq_eq_false_iff_ne.mpr h1
    have b2 : (ty == "str") = false := beq_eq_false_iff_ne.mpr h2
    have b3 : (ty == "bool") = false := beq_eq_false_iff_ne.mpr h3
    have b4 : (ty == "int") = false := beq_eq_false_iff_ne.mpr h4
    have b5 : (ty == "float") = false := beq_eq_false_iff_ne.mpr h5
    have b6 : (ty == "list") = false := beq_eq_false_iff_ne.mpr h6
    have b7 : (ty == "dict") = false := beq_eq_false_iff_ne.mpr h7
    simp [pythonToGo, getTypeName, isNone, isNullRef, isString, isBool, isInt,
      isFloat, isList, isDict, b1, b2, b3, b4, b5, b6, b7]

/-- Witness for C2 at concrete objects: a boolean converts to a host
boolean, and an object of an unmatched type name fails naming it. -/
theorem c2_witness :
    pythonToGo (.bool true) = .ok (.bool true) ∧
    pythonToGo (.other "frozenset") =
      .error "unsupported Python type: frozenset" :=
  ⟨c2_typeNameDispatch.2.1 true,
   c2_typeNameDispatch.2.2 "frozenset" (by decide)⟩

/-- C6: over every native set-item failure pattern and every argument list,
the argument-tuple build of callFunctionUnsafe releases references
exactly as specified: the binder never separately releases a converted
argument (stolen references); every converted argument is released
exactly once — the inserted ones by the single teardown of the tuple, a
conversion-failure argument does not exist, and an insertion-failure
argument by the failing stealing call itself before the error
propagates; and the tuple container is released exactly once on every
path. -/
theorem c6_argumentTupleRefcounts (setFails : Nat → Bool) (args : List GoVal) :
    (∀ id ∈ (buildArgumentTupleRC setFails args).convertedIds,
      countBinderDecrefs (callTupleEvents setFails args) id = 0) ∧
    countReleases (callTupleEvents setFails args) 0 = 1 ∧
    (∀ id ∈ (buildArgumentTupleRC setFails args).convertedIds,
      countReleases (callTupleEvents setFails args) id = 1) := by
  obtain ⟨hb, hd, hn⟩ := buildLoopRC_inv setFails args 0 1
  have hins_sub : ∀ id ∈ (buildLoopRC setFails args 0 1).insertedIds, 1 ≤ id := by
    intro id hid
    apply hb
    rcases hd with ⟨he, _⟩ | ⟨j, hj1, _, _⟩
    · rwa [he] at hid
    · rw [hj1]; exact List.mem_append_left _ hid
  have h0ins : 0 ∉ (buildLoopRC setFails args 0 1).insertedIds := by
    intro h
    have := hins_sub 0 h
    omega
  have hteardownB : ∀ id0,
      (((buildLoopRC setFails args 0 1).insertedIds.map RefEvent.teardown).filter
        (isBinderDecrefOf id0)).length = 0 := by
    intro id0
    induction (buildLoopRC setFails args 0 1).insertedIds with
    | nil => rfl
    | cons a l ihl => simp [isBinderDecrefOf, ihl]
  refine ⟨?_, ?_, ?_⟩
  · intro id hid
    simp only [buildArgumentTupleRC] at hid
    have hid1 : 1 ≤ id := hb id hid
    have h0 : (0 == id) = false := by
      simp only [beq_eq_false_iff_ne, ne_eq]
      omega
    rcases hd with ⟨_, hs⟩ | ⟨j, _, hj2, _⟩
    · simp [callTupleEvents, buildArgumentTupleRC, countBinderDecrefs, hs,
        List.filter_append, isBinderDecrefOf, h0, hteardownB id]
    · simp [callTupleEvents, buildArgumentTupleRC, countBinderDecrefs, hj2,
        List.filter_append, isBinderDecrefOf, h0, hteardownB id]
  · rcases hd with ⟨_, hs⟩ | ⟨j, hj1, hj2, _⟩
    · simp [callTupleEvents, buildArgumentTupleRC, countReleases, hs,
        List.filter_append, releasesId, count_teardown 0 _ hn, h0ins]
    · have hj1' : 1 ≤ j := by
        apply hb
        rw [hj1]
        exact List.mem_append_right _ (by simp)
      have hj0 : (j == 0) = false := by
        simp only [beq_eq_false_iff_ne, ne_eq]
        omega
      simp [callTupleEvents, buildArgumentTupleRC, countReleases, hj2,
        List.filter_append, releasesId, count_teardown 0 _ hn, h0ins, hj0]
  · intro id hid
    simp only [buildArgumentTupleRC] at hid
    have hid1 : 1 ≤ id := hb id hid
    have h0 : (0 == id) = false := by
      simp only [beq_eq_false_iff_ne, ne_eq]
      omega
    rcases hd with ⟨he, hs⟩ | ⟨j, hj1, hj2, hj3⟩
    · have hmem : id ∈ (buildLoopRC setFails args 0 1).insertedIds := by
        rw [he]; exact hid
      simp [callTupleEvents, buildArgumentTupleRC, countReleases, hs,
        List.filter_append, releasesId, count_teardown id _ hn, hmem, h0]
    · rw [hj1] at hid
      rcases List.mem_append.mp hid with hmem | hjid
      · have hjne : (j == id) = false := by
          simp only [beq_eq_false_iff_ne, ne_eq]
          intro hcontra
          rw [hcontra] at hj3
          exact hj3 hmem
        simp [callTupleEvents, buildArgumentTupleRC, countReleases, hj2,
          List.filter_append, releasesId, count_teardown id _ hn, hmem, h0, hjne]
      · have hjid' : j = id := by
          have : id = j := by simpa using hjid
          omega
        subst hjid'
        have hmem : j ∉ (buildLoopRC setFails args 0 1).insertedIds := hj3
        simp [callTupleEvents, buildArgumentTupleRC, countReleases, hj2,
          List.filter_append, releasesId, count_teardown j _ hn, hmem, h0]

/-- Witness for C6 at a concrete failing build: three arguments, the native
set-item call failing at index 1, so argument roots 1, 2 are converted,
root 1 is inserted, and root 2 is consumed by the failing call; each is
released exactly once and the binder never releases an argument. -/
theorem c6_witness :
    (buildArgumentTupleRC (fun i => i == 1)
      [.int64 5, .str "x", .bool true]).convertedIds = [1, 2] ∧
    countReleases (callTupleEvents (fun i => i == 1)
      [.int64 5, .str "x", .bool true]) 2 = 1 ∧
    countBinderDecrefs (callTupleEvents (fun i => i == 1)
      [.int64 5, .str "x", .bool true]) 1 = 0 :=
  ⟨rfl,
   (c6_argumentTupleRefcounts (fun i => i == 1)
     [.int64 5, .str "x", .bool true]).2.2 2 (by decide),
   (c6_argumentTupleRefcounts (fun i => i == 1)
     [.int64 5, .str "x", .bool true]).1 1 (by decide)⟩

/-- C10: Go `int` and Go `int64` arguments become the same integer object
(`PyLong_FromLong` on the widened value); every interpreter int converts
back to a host `int64`; hence round-tripping a Go `int` yields the same
integer value as an `int64`, not a Go `int` — value-preserving, not
type-preserving. -/
theorem c10_intWidening :
    (∀ n : Int, goToPython (.int n) = goToPython (.int64 n)) ∧
    (∀ n : Int, pythonToGo (.int n) = .ok (.int64 n)) ∧
    (∀ n : Int, roundTrip (.int n) = .ok (.int64 n)) ∧
    (∀ n : Int, GoVal.int64 n ≠ GoVal.int n) :=
  ⟨fun _ => rfl, fun _ => rfl, fun _ => rfl,
   fun _ h => GoVal.noConfusion h⟩

/-- Witness for C10 at a concrete integer. -/
theorem c10_witness :
    roundTrip (.int 42) = .ok (.int64 42) ∧ GoVal.int64 42 ≠ GoVal.int 42 :=
  ⟨c10_intWidening.2.2.1 42, c10_intWidening.2.2.2 42⟩

/-- C3 (amended): in any state whose initialized flag is down, RunString,
RunFile and CallFunction return the state error with the interpreter
untouched except for the initialization query itself — the only entry
point their trace may contain is `Py_IsInitialized` (and none at all
when the pointers are unregistered); no execution, import, conversion or
call entry point is reached, and the operations are plain total
functions (no crash, no hang). -/
theorem c3_uninitializedGate (env : NativeEnv) (fs : String → Option String)
    (code filename module func : String) (args : List GoVal) (s : PyState)
    (h : s.initialized = false) :
    runStringFn env code s = (some "Python interpreter is not initialized", s,
      (isInitializedFn s).2.map Event.call) ∧
    runFileFn env fs filename s = (some "Python interpreter is not initialized", s,
      (isInitializedFn s).2.map Event.call) ∧
    callFunctionFn env module func args s =
      (.error "Python interpreter is not initialized", s,
      (isInitializedFn s).2.map Event.call) ∧
    (∀ n ∈ (isInitializedFn s).2, n = "Py_IsInitialized") := by
  by_cases hr : s.registered
  · refine ⟨?_, ?_, ?_, ?_⟩ <;>
      simp [runStringFn, runFileFn, callFunctionFn, isInitializedFn, hr, h]
  · have hr' : s.registered = false := by simpa using hr
    refine ⟨?_, ?_, ?_, ?_⟩ <;>
      simp [runStringFn, runFileFn, callFunctionFn, isInitializedFn, hr', h]

/-- Witness for C3 in a registered, uninitialized state. -/
theorem c3_witness :
    runStringFn env0 "x = 1" stUninit =
      (some "Python interpreter is not initialized", stUninit,
       [Event.call "Py_IsInitialized"]) ∧
    callFunctionFn env0 "math" "sqrt" [] stUninit =
      (.error "Python interpreter is not initialized", stUninit,
       [Event.call "Py_IsInitialized"]) :=
  ⟨(c3_uninitializedGate env0 fsEmpty "x = 1" "f.py" "math" "sqrt" [] stUninit rfl).1,
   (c3_uninitializedGate env0 fsEmpty "x = 1" "f.py" "math" "sqrt" [] stUninit rfl).2.2.1⟩

/-- C3 counterexample to the claim as stated: the state error is reached
only after invoking the initialization-query entry point, so the trace of
an uninitialized RunString is not empty — the operation does invoke an
interpreter entry point (the query), contradicting "without invoking any
interpreter entry point". -/
theorem c3_counterexample :
    (runStringFn env0 "x = 1" stUninit).1 =
      some "Python interpreter is not initialized" ∧
    (runStringFn env0 "x = 1" stUninit).2.2 = [Event.call "Py_IsInitialized"] ∧
    (runStringFn env0 "x = 1" stUninit).2.2 ≠ ([] : List Event) :=
  ⟨rfl, rfl, by decide⟩

/-- Lock placement of RunString: the initialization query precedes the
lock, and everything after the lock up to the closing unlock is a bare
entry-point call list (so the mutex, once acquired, is held for all the
remaining interpreter work and released on every exit path). -/
theorem runString_lockTrace (env : NativeEnv) (code : String) (s : PyState)
    (hr : s.registered = true) (hi : s.initialized = true) :
    ∃ body : List String, (runStringFn env code s).2.2 =
      Event.call "Py_IsInitialized" :: Event.lock :: body.map Event.call ++
        [Event.unlock] := by
  by_cases hst : env.runStatus (decodeCString (stringToCString code)) != 0
  · refine ⟨"PyRun_SimpleString" :: (getPythonErrorFn env
      { s with errSet := s.errSet ||
        env.runSetsErr (decodeCString (stringToCString code)) }).2.2, ?_⟩
    simp [runStringFn, isInitializedFn, hr, hi, hst]
  · refine ⟨["PyRun_SimpleString"], ?_⟩
    simp only [Bool.not_eq_true] at hst
    simp [runStringFn, isInitializedFn, hr, hi, hst]

/-- C4 (amended): RunString, RunFile and CallFunction perform the
initialization query before acquiring the mutex and then hold it for all
remaining entry-point work, releasing it on every exit path (the body
between lock and unlock is a bare entry-point call list, so it can never
lock or unlock); RunFile repeats the query through its RunString
delegation, and acquires no mutex at all when the file does not exist;
Initialize and IsInitialized never touch the mutex at all; Finalize
locks only around the cleanup pass and invokes the initialization query
and the native finalization entry point outside the mutex. -/
theorem c4_lockPlacement (env : NativeEnv) (fs : String → Option String)
    (code filename module func : String) (args : List GoVal) (s : PyState)
    (hr : s.registered = true) (hi : s.initialized = true) :
    (∃ body : List String, (runStringFn env code s).2.2 =
      Event.call "Py_IsInitialized" :: Event.lock :: body.map Event.call ++
        [Event.unlock]) ∧
    (∃ body : List String, (callFunctionFn env module func args s).2.2 =
      Event.call "Py_IsInitialized" :: Event.lock :: body.map Event.call ++
        [Event.unlock]) ∧
    (∀ content, fs filename = some content →
      ∃ body : List String, (runFileFn env fs filename s).2.2 =
        Event.call "Py_IsInitialized" :: Event.call "Py_IsInitialized" ::
          Event.lock :: body.map Event.call ++ [Event.unlock]) ∧
    (fs filename = Option.none →
      (runFileFn env fs filename s).2.2 = [Event.call "Py_IsInitialized"]) ∧
    (∀ s2 : PyState, Event.lock ∉ (initializeFn s2).2.2) ∧
    (∀ s2 : PyState, Event.lock ∉ (isInitializedFn s2).2.map Event.call) ∧
    (finalizeFn env s).2.2 =
      [.call "Py_IsInitialized", .lock, .call "PyRun_SimpleString", .unlock,
       .call "Py_FinalizeEx"] := by
  refine ⟨?_, ?_, ?_, ?_, ?_, ?_, ?_⟩
  · exact runString_lockTrace env code s hr hi
  · refine ⟨(callFunctionUnsafeFn env module func args s).2.2, ?_⟩
    simp [callFunctionFn, isInitializedFn, hr, hi]
  · intro content hcontent
    obtain ⟨body, hb⟩ := runString_lockTrace env content s hr hi
    refine ⟨body, ?_⟩
    simp [runFileFn, isInitializedFn, hr, hi, hcontent, hb]
  · intro hnone
    simp [runFileFn, isInitializedFn, hr, hi, hnone]
  · intro s2
    by_cases hr2 : s2.registered
    · simp [initializeFn, hr2]
    · have hr2' : s2.registered = false := by simpa using hr2
      simp [initializeFn, hr2']
  · intro s2
    by_cases hr2 : s2.registered
    · simp [isInitializedFn, hr2]
    · have hr2' : s2.registered = false := by simpa using hr2
      simp [isInitializedFn, hr2']
  · by_cases hf : env.finalizeStatus < 0 <;>
      simp [finalizeFn, isInitializedFn, hr, hi, hf]

/-- Witness for C4: Initialize and IsInitialized at a concrete state never
lock, RunFile on a missing file performs only the query, and Finalize's
native stop call sits outside the lock/unlock pair. -/
theorem c4_witness :
    Event.lock ∉ (initializeFn stInit).2.2 ∧
    Event.lock ∉ (isInitializedFn stInit).2.map Event.call ∧
    (runFileFn env0 fsEmpty "f.py" stInit).2.2 = [Event.call "Py_IsInitialized"] ∧
    (finalizeFn env0 stInit).2.2 =
      [.call "Py_IsInitialized", .lock, .call "PyRun_SimpleString", .unlock,
       .call "Py_FinalizeEx"] :=
  ⟨(c4_lockPlacement env0 fsEmpty "x" "f.py" "m" "f" [] stInit rfl rfl).2.2.2.2.1 stInit,
   (c4_lockPlacement env0 fsEmpty "x" "f.py" "m" "f" [] stInit rfl rfl).2.2.2.2.2.1 stInit,
   (c4_lockPlacement env0 fsEmpty "x" "f.py" "m" "f" [] stInit rfl rfl).2.2.2.1 rfl,
   (c4_lockPlacement env0 fsEmpty "x" "f.py" "m" "f" [] stInit rfl rfl).2.2.2.2.2.2⟩

/-- C4 counterexample to the claim as stated: Initialize's trace invokes
the start entry point without any mutex acquisition, and RunString's
trace begins with the initialization query before the lock — so neither
operation holds the mutex for its entire duration. -/
theorem c4_counterexample :
    (initializeFn stInit).2.2 = [Event.call "Py_Initialize"] ∧
    ¬ lockWrapped (initializeFn stInit).2.2 ∧
    (runStringFn env0 "x = 1" stInit).2.2 =
      [.call "Py_IsInitialized", .lock, .call "PyRun_SimpleString", .unlock] ∧
    ¬ lockWrapped (runStringFn env0 "x = 1" stInit).2.2 := by
  refine ⟨rfl, ?_, rfl, ?_⟩
  · rintro ⟨mid, hmid, -⟩
    rw [show (initializeFn stInit).2.2 = [Event.call "Py_Initialize"] from rfl] at hmid
    simp at hmid
  · rintro ⟨mid, hmid, -⟩
    rw [show (runStringFn env0 "x = 1" stInit).2.2 =
      [.call "Py_IsInitialized", .lock, .call "PyRun_SimpleString", .unlock]
      from rfl] at hmid
    simp at hmid

/-- C5 (amended): Initialize performs no lifecycle-state check and no
post-start verification: it fails only when the function pointers are
unregistered, and otherwise — from any state, initialized or not — it
invokes the native start entry point once and returns success, its trace
containing no initialization-query call. -/
theorem c5_initializeUnchecked (s : PyState) :
    (s.registered = false →
      initializeFn s = (.error "Python functions not registered", s, [])) ∧
    (s.registered = true →
      initializeFn s =
        (.ok (), { s with initialized := true }, [Event.call "Py_Initialize"])) := by
  constructor
  · intro h
    simp [initializeFn, h]
  · intro h
    simp [initializeFn, h]

/-- Witness for C5 applying the amended theorem in the already-initialized
state. -/
theorem c5_witness :
    initializeFn stInit = (.ok (), stInit, [Event.call "Py_Initialize"]) :=
  (c5_initializeUnchecked stInit).2 rfl

/-- C5 counterexample to the claim as stated: calling Initialize when the
interpreter is already initialized returns success, not a state error,
and the trace shows the start entry point invoked again with no
initialization-query verification afterwards. -/
theorem c5_counterexample :
    stInit.initialized = true ∧
    (initializeFn stInit).1 = .ok () ∧
    (initializeFn stInit).2.2 = [Event.call "Py_Initialize"] :=
  ⟨rfl, rfl, rfl⟩

/-- C7 (amended): starting from a state with no pending exception, a
failing RunString and the import-failure and call-failure paths of
CallFunction all leave the exception state cleared (they route the
pending exception through getPythonError); but the attribute-lookup
failure path of CallFunction returns its error with the exception still
pending — the one failure path that skips the translation. -/
theorem c7_exceptionClearing (env : NativeEnv) (code module func : String)
    (args : List GoVal) (s : PyState) (hr : s.registered = true)
    (hi : s.initialized = true) (he : s.errSet = false) :
    (env.runStatus (decodeCString (stringToCString code)) != 0 →
      (runStringFn env code s).2.1.errSet = false ∧
      (runStringFn env code s).1.isSome) ∧
    (env.importOk module = false →
      (callFunctionFn env module func args s).2.1.errSet = false ∧
      (callFunctionFn env module func args s).1.isOk = false) ∧
    (env.importOk module = true → env.getattrOk func = true →
      env.callOk = false →
      (callFunctionFn env module func args s).2.1.errSet = false) ∧
    (env.importOk module = true → env.getattrOk func = false →
      (callFunctionFn env module func args s).2.1.errSet = true ∧
      (callFunctionFn env module func args s).1.isOk = false) := by
  refine ⟨?_, ?_, ?_, ?_⟩
  · intro hst
    by_cases hse : env.runSetsErr (decodeCString (stringToCString code)) <;>
      simp [runStringFn, isInitializedFn, getPythonErrorFn, hr, hi, he, hst, hse]
  · intro him
    simp [callFunctionFn, callFunctionUnsafeFn, isInitializedFn,
      getPythonErrorFn, Except.isOk, Except.toBool, hr, hi, he, him]
  · intro him hat hc
    cases hbuild : buildArgumentTuple args with
    | error e =>
      simp [callFunctionFn, callFunctionUnsafeFn, isInitializedFn,
        getPythonErrorFn, hr, hi, he, him, hat, hc, hbuild]
    | ok t =>
      simp [callFunctionFn, callFunctionUnsafeFn, isInitializedFn,
        getPythonErrorFn, hr, hi, he, him, hat, hc, hbuild]
  · intro him hat
    simp [callFunctionFn, callFunctionUnsafeFn, isInitializedFn,
      getPythonErrorFn, Except.isOk, Except.toBool, hr, hi, he, him, hat]

/-- Witness for C7: a concrete failing RunString clears the exception
state, and a concrete import failure clears it too. -/
theorem c7_witness :
    (runStringFn envRunFail "1/0" stInit).2.1.errSet = false ∧
    (callFunctionFn envImportFail "nosuch" "f" [] stInit).2.1.errSet = false :=
  ⟨((c7_exceptionClearing envRunFail "1/0" "m" "f" [] stInit rfl rfl rfl).1
      (by decide)).1,
   ((c7_exceptionClearing envImportFail "x" "nosuch" "f" [] stInit
      rfl rfl rfl).2.1 rfl).1⟩

/-- C7 counterexample to the claim as stated: a CallFunction that fails at
the attribute lookup returns its error while the pending exception set by
the failed lookup is neither fetched nor cleared, so the exception state
survives the failing call. -/
theorem c7_counterexample :
    (callFunctionFn envAttrFail "math" "doesNotExist" [] stInit).1 =
      .error "function doesNotExist not found in module math" ∧
    stInit.errSet = false ∧
    (callFunctionFn envAttrFail "math" "doesNotExist" [] stInit).2.1.errSet = true :=
  ⟨rfl, rfl, rfl⟩

/-- C8 (amended): RunString has no non-emptiness precondition: the empty
string is converted by stringToCString to an empty C string (never a nil
pointer), handed to the run entry point like any other source, and when
that entry point reports status 0 — an empty program succeeds — RunString
returns success. -/
theorem c8_emptySourceRuns (env : NativeEnv) (s : PyState)
    (hr : s.registered = true) (hi : s.initialized = true)
    (h0 : env.runStatus "" = 0) (hs : env.runSetsErr "" = false) :
    runStringFn env "" s =
      (Option.none, s,
       [.call "Py_IsInitialized", .lock, .call "PyRun_SimpleString", .unlock]) := by
  obtain ⟨sr, si, se⟩ := s
  simp only at hr hi
  subst hr
  subst hi
  have hdec : decodeCString (stringToCString "") = "" := rfl
  simp [runStringFn, isInitializedFn, hdec, h0, hs]

/-- Witness for C8 at the all-succeeding native side. -/
theorem c8_witness :
    runStringFn env0 "" stInit =
      (Option.none, stInit,
       [.call "Py_IsInitialized", .lock, .call "PyRun_SimpleString", .unlock]) :=
  c8_emptySourceRuns env0 stInit rfl rfl rfl rfl

/-- C8 counterexample to the claim as stated: on an initialized interpreter
RunString with the empty string does not fail — it invokes the run entry
point on the empty program and returns success. -/
theorem c8_counterexample :
    (runStringFn env0 "" stInit).1 = Option.none ∧
    Event.call "PyRun_SimpleString" ∈ (runStringFn env0 "" stInit).2.2 :=
  ⟨rfl, by decide⟩

/-- C9: Finalize is valid only from the initialized state (state error
otherwise, unregistered pointers included); the best-effort cleanup pass
runs under the mutex with its status discarded, so no cleanup outcome —
the theorem quantifies over every native behaviour — blocks the native
finalization entry point, which always follows in the trace; the call
fails exactly when the finalization status code is negative, with the
fatal message naming the code; and on any outcome the interpreter is left
in the finalized (non-initialized) state. -/
theorem c9_finalizeContract (env : NativeEnv) (s : PyState)
    (hr : s.registered = true) (hi : s.initialized = true) :
    ((finalizeFn env s).1 = Option.none ↔ 0 ≤ env.finalizeStatus) ∧
    (env.finalizeStatus < 0 → (finalizeFn env s).1 =
      some ("Python interpreter finalization failed with code: " ++
        toString env.finalizeStatus)) ∧
    (finalizeFn env s).2.1.initialized = false ∧
    (finalizeFn env s).2.2 =
      [.call "Py_IsInitialized", .lock, .call "PyRun_SimpleString", .unlock,
       .call "Py_FinalizeEx"] ∧
    (∀ s2 : PyState, s2.initialized = false →
      (finalizeFn env s2).1.isSome ∧ (finalizeFn env s2).2.1 = s2) := by
  refine ⟨?_, ?_, ?_, ?_, ?_⟩
  · by_cases hf : env.finalizeStatus < 0 <;>
      simp [finalizeFn, isInitializedFn, hr, hi, hf] <;> omega
  · intro hf
    simp [finalizeFn, isInitializedFn, hr, hi, hf]
  · by_cases hf : env.finalizeStatus < 0 <;>
      simp [finalizeFn, isInitializedFn, hr, hi, hf]
  · by_cases hf : env.finalizeStatus < 0 <;>
      simp [finalizeFn, isInitializedFn, hr, hi, hf]
  · intro s2 h2
    by_cases hr2 : s2.registered
    · simp [finalizeFn, isInitializedFn, hr2, h2]
    · have hr2' : s2.registered = false := by simpa using hr2
      simp [finalizeFn, isInitializedFn, hr2']

/-- Witness for C9: concrete finalizations with status 0 (success) and
status -1 (fatal error naming the code), both leaving the interpreter
finalized, and a state error from the uninitialized state. -/
theorem c9_witness :
    (finalizeFn env0 stInit).1 = Option.none ∧
    (finalizeFn envFinFail stInit).1 =
      some "Python interpreter finalization failed with code: -1" ∧
    (finalizeFn envFinFail stInit).2.1.initialized = false ∧
    (finalizeFn env0 stUninit).1.isSome :=
  ⟨(c9_finalizeContract env0 stInit rfl rfl).1.mpr (by decide),
   (c9_finalizeContract envFinFail stInit rfl rfl).2.1 (by decide),
   (c9_finalizeContract envFinFail stInit rfl rfl).2.2.1,
   ((c9_finalizeContract env0 stInit rfl rfl).2.2.2.2 stUninit rfl).1⟩

end GoPython
